import Mathlib

/-
Verification development for the ESP32 eco-exoskeleton firmware modules.

Shallow embedding notes:
* Hardware and transport calls (ledc_set_duty, gpio_set_level, vTaskDelay,
  esp_mqtt_client_publish, DebugHelper logging, sendStatus telemetry) are
  modelled as an explicit list of emitted `Effect`s, in source order.
* Time: `esp_timer_get_time() / 1000` advances only through `vTaskDelay`
  inside the supervision loops, so elapsed milliseconds at polling step `k`
  equal `k * interval`.  Each loop carries the polling step index and a fuel
  argument; the top-level entry points pass fuel that provably exceeds the
  iteration count forced by the loop's own deadline.
* Sensor and feedback reads are an environment function from polling step to
  the value read (`pressureAt`, `depthAt`, `feedbackAt`).
* C `int` is `Int` with truncating division (`Int.tdiv`); the implicit
  conversion of the `int duration` argument to `unsigned long` in the spray
  loop guard is `toUnsignedLong` (reduction modulo 2^32).
* cJSON values are embedded as the inductive `CJson`; `cJSON_Parse` is an
  external collaborator, so callbacks receive its result as `Option CJson`
  (`none` models a failed parse).
* The C float sensor samples are embedded as exact rationals (`ℚ`); the
  moving-average contract in the spec is stated up to floating-point
  tolerance, i.e. about the ideal arithmetic mean.
-/

namespace EcoExo

/-- One observable side effect of the firmware: an actuator write, a GPIO
write, a telemetry status message, a debug log line, a delay, a transport
call, an invocation of the registered message callback, or the fatal
restart signal (esp_restart). -/
inductive Effect where
  | setDuty (level : Int)
  | setPin (pin : Nat) (level : Nat)
  | statusMsg (state : String) (message : String)
  | logInfo (msg : String)
  | logError (msg : String)
  | logWarning (msg : String)
  | delayMs (ms : Nat)
  | transportPublish (topic : String)
  | transportSubscribe (topic : String)
  | callbackInvoked (topic : String)
  | restartSignal
  deriving DecidableEq, Repr

/-- States of all telemetry status messages in a trace, in emission order. -/
def statusStates (es : List Effect) : List String :=
  es.filterMap fun e =>
    match e with
    | .statusMsg s _ => some s
    | _ => none

/-- Level of the last PWM duty write in a trace, if any. -/
def lastDrive : List Effect → Option Int
  | [] => none
  | .setDuty l :: rest => some ((lastDrive rest).getD l)
  | _ :: rest => lastDrive rest

/-- Level of the last write to a given GPIO pin in a trace, if any. -/
def lastPinLevel (pin : Nat) : List Effect → Option Nat
  | [] => none
  | .setPin p l :: rest =>
    if p = pin then some ((lastPinLevel pin rest).getD l)
    else lastPinLevel pin rest
  | _ :: rest => lastPinLevel pin rest

/-- Total milliseconds of delay effects in a trace. -/
def delaysTotal (es : List Effect) : Nat :=
  (es.filterMap fun e =>
    match e with
    | .delayMs d => some d
    | _ => none).sum

/-- Milliseconds of delay emitted before the first status message with the
given state, if such a status occurs; this is the run-relative time at which
that status is emitted. -/
def timeOfFirstStatus (state : String) : List Effect → Option Nat
  | [] => none
  | .statusMsg s _ :: rest =>
    if s = state then some 0 else timeOfFirstStatus state rest
  | .delayMs d :: rest => (timeOfFirstStatus state rest).map (d + ·)
  | _ :: rest => timeOfFirstStatus state rest

/-- Topics of all transport subscribe calls in a trace. -/
def subscribesIn (es : List Effect) : List String :=
  es.filterMap fun e =>
    match e with
    | .transportSubscribe t => some t
    | _ => none

/-- Number of restart signals in a trace. -/
def restartCount (es : List Effect) : Nat :=
  es.countP (fun e => e == .restartSignal)

/-- PWM duty level after replaying a trace from the given current level. -/
def driveAfter (cur : Int) : List Effect → Int
  | [] => cur
  | .setDuty l :: rest => driveAfter l rest
  | _ :: rest => driveAfter cur rest

/-- Holds when every actuator-run start (a SPRAYING status) in the trace
happens while the PWM output is de-energized, i.e. no run starts while a
previous run still has the output powered. -/
def runStartsDeenergized (cur : Int) : List Effect → Bool
  | [] => true
  | .setDuty l :: rest => runStartsDeenergized l rest
  | .statusMsg s _ :: rest =>
    (s != "SPRAYING" || cur == 0) && runStartsDeenergized cur rest
  | _ :: rest => runStartsDeenergized cur rest

/-- C truncating integer division (rounds toward zero), as used by the C
`/` operator on `int`. -/
def cIntDiv (a b : Int) : Int := a.tdiv b

/-- Value of a C `int` after implicit conversion to 32-bit `unsigned long`,
as happens to `duration` in the spray loop guard comparison. -/
def toUnsignedLong (n : Int) : Nat := (n % (2 ^ 32)).toNat

/-! ## Moving-average sensor filter (sensor_filter_c.h / sensor_filter.h) -/

def FILTER_WINDOW_SIZE : Nat := 5

/-- State of one moving-average filter: a 5-slot circular buffer, a write
cursor, and a fill count (embedding of `sensor_filter_t`). -/
structure sensor_filter_t where
  values : List ℚ
  index : Nat
  count : Nat
  deriving DecidableEq, Repr

/-- Embedding of `sensor_filter_init`: zeroed buffer, cursor and count. -/
def sensor_filter_init : sensor_filter_t :=
  { values := List.replicate FILTER_WINDOW_SIZE 0
    index := 0
    count := 0 }

/-- Embedding of `sensor_filter_add_value`: write at the cursor, advance the
cursor modulo the window size, increment the count saturating at the window
size. -/
def sensor_filter_add_value (filter : sensor_filter_t) (value : ℚ) :
    sensor_filter_t :=
  { values := filter.values.set filter.index value
    index := (filter.index + 1) % FILTER_WINDOW_SIZE
    count :=
      if filter.count < FILTER_WINDOW_SIZE then filter.count + 1
      else filter.count }

/-- Embedding of `sensor_filter_get_filtered`: 0 when the buffer is empty,
otherwise the mean of the first `count` buffer slots. -/
def sensor_filter_get_filtered (filter : sensor_filter_t) : ℚ :=
  if filter.count = 0 then 0
  else (filter.values.take filter.count).sum / (filter.count : ℚ)

/-- Push a whole sequence of raw readings into a freshly initialized
filter, oldest first. -/
def sensor_filter_push_all (xs : List ℚ) : sensor_filter_t :=
  xs.foldl sensor_filter_add_value sensor_filter_init

/-- The last `n` elements of a list (all of it when it is shorter). -/
def lastWindow (n : Nat) (xs : List ℚ) : List ℚ :=
  xs.drop (xs.length - n)

/-- Logical queue update mirroring one filter push: append the new sample,
evicting the oldest sample once the window is full. -/
def pushWindow (q : List ℚ) (x : ℚ) : List ℚ :=
  if q.length = 5 then q.tail ++ [x] else q ++ [x]

/-- Representation invariant tying a filter state to the logical queue `q`
of its most recent samples, oldest first: the buffer has the fixed window
length, the cursor is in range, the fill count is the queue length, a
not-yet-full buffer has its cursor equal to the count, and buffer slot
`(index + 5 - count + k) % 5` holds the k-th oldest queued sample. -/
def FilterRepr (st : sensor_filter_t) (q : List ℚ) : Prop :=
  st.values.length = 5 ∧ st.index < 5 ∧ st.count = q.length ∧
  q.length ≤ 5 ∧ (q.length < 5 → st.index = q.length) ∧
  ∀ k, k < q.length →
    q.getD k 0 = st.values.getD ((st.index + 5 - q.length + k) % 5) 0

/-! ## cJSON embedding -/

/-- Decoded JSON value as produced by the external cJSON parser.  Numbers
carry the `valueint` truncation the modules read. -/
inductive CJson where
  | jnull
  | jbool (b : Bool)
  | jnum (n : Int)
  | jstr (s : String)
  | jarr (items : List CJson)
  | jobj (fields : List (String × CJson))

/-- Embedding of `cJSON_GetObjectItem`: field lookup, `none` on a missing
field or a non-object (cJSON tolerates a NULL object argument). -/
def cJSON_GetObjectItem : Option CJson → String → Option CJson
  | some (.jobj fields), key =>
    match fields.find? (fun f => f.1 == key) with
    | some f => some f.2
    | none => none
  | _, _ => none

/-- Embedding of `cJSON_IsNumber` (false on NULL). -/
def cJSON_IsNumber : Option CJson → Bool
  | some (.jnum _) => true
  | _ => false

/-- Embedding of `cJSON_IsString` (false on NULL). -/
def cJSON_IsString : Option CJson → Bool
  | some (.jstr _) => true
  | _ => false

/-- The `valueint` field of a cJSON number. -/
def jsonValueInt : Option CJson → Int
  | some (.jnum n) => n
  | _ => 0

/-- The `valuestring` field of a cJSON string. -/
def jsonValueString : Option CJson → String
  | some (.jstr s) => s
  | _ => ""

/-! ## Bubble machine module (bubble_machine_module.c) -/

/-- Environment of one spray run: the pressure-present guard GPIO reading at
each polling step. -/
structure BubbleEnv where
  pressureAt : Nat → Nat

def TOPIC_COMMAND_bubble : String := "exoskeleton/bubble/command"

/-- Nozzle PWM level computed by `sprayBubbles`: map 0-100 percent to the
0-255 duty range with C integer arithmetic (no clamping in the source). -/
def sprayPwmValue (intensity : Int) : Int :=
  cIntDiv (intensity * 255) 100

/-- Monitoring loop of `sprayBubbles`: while elapsed time is below the
commanded duration, read the pressure guard; on a zero reading log and emit
the ERROR status and break, otherwise delay 100 ms and poll again. -/
def sprayLoop (pressureAt : Nat → Nat) (duration : Nat) :
    Nat → Nat → List Effect
  | _, 0 => []
  | k, fuel + 1 =>
    if k * 100 < duration then
      if pressureAt k = 0 then
        [.logError "Insufficient system pressure",
         .statusMsg "ERROR" "Insufficient system pressure"]
      else
        .delayMs 100 :: sprayLoop pressureAt duration (k + 1) fuel
    else []

/-- Embedding of `sprayBubbles`: SPRAYING status, set the nozzle duty from
the intensity, run the monitoring loop, then unconditionally de-energize the
nozzle and emit the COMPLETED status.  The fuel `duration + 1` exceeds the
loop's maximal iteration count `duration / 100 + 1`. -/
def sprayBubbles (pressureAt : Nat → Nat) (duration : Nat) (intensity : Int) :
    List Effect :=
  [.logInfo "Spraying repair solution",
   .statusMsg "SPRAYING" "Spraying repair solution...",
   .setDuty (sprayPwmValue intensity)]
  ++ sprayLoop pressureAt duration 0 (duration + 1)
  ++ [.setDuty 0,
      .logInfo "Spraying operation completed",
      .statusMsg "COMPLETED" "Spraying completed"]

/-- Embedding of the bubble module's `processCommand`: dispatch a "spray"
action when both `params.duration` and `params.intensity` are numeric,
otherwise do nothing (no log, no telemetry, no actuator write). -/
def processCommand_bubble (env : BubbleEnv) (command : CJson) : List Effect :=
  let action := cJSON_GetObjectItem (some command) "action"
  if cJSON_IsString action && (jsonValueString action == "spray") then
    let params := cJSON_GetObjectItem (some command) "params"
    let duration := cJSON_GetObjectItem params "duration"
    let intensity := cJSON_GetObjectItem params "intensity"
    if cJSON_IsNumber duration && cJSON_IsNumber intensity then
      sprayBubbles env.pressureAt (toUnsignedLong (jsonValueInt duration))
        (jsonValueInt intensity)
    else []
  else []

/-- Embedding of the bubble module's `mqttCallback`: the synthetic
resubscription topic re-issues the command-topic subscription before any
parsing; a failed parse (`none`) only logs; a message on the command topic
is routed to `processCommand`. -/
def mqttCallback_bubble (env : BubbleEnv) (topic : String)
    (payload : Option CJson) : List Effect :=
  if topic == "internal/resubscribe" then
    [.logInfo "Resubscribing to command topic",
     .transportSubscribe TOPIC_COMMAND_bubble]
  else
    match payload with
    | none => [.logError "JSON parsing failed"]
    | some json =>
      if topic == TOPIC_COMMAND_bubble then processCommand_bubble env json
      else []

/-- Sequential delivery of a list of inbound messages to the bubble
module's callback.  The external MQTT client dispatches events from a single
task queue, so each callback invocation (and any actuator run it performs)
finishes before the next message is delivered. -/
def handleMessages_bubble (env : BubbleEnv)
    (msgs : List (String × Option CJson)) : List Effect :=
  msgs.foldl (fun acc m => acc ++ mqttCallback_bubble env m.1 m.2) []

/-! ## Injection module (injection_module.c) -/

/-- Environment of one injection run: the raw depth ADC reading at each
polling step. -/
structure InjectionEnv where
  depthAt : Nat → Int

/-- Motor PWM level computed by `injectSoil`: map the 0-300 pressure target
into the 0-255 duty range, then clamp to a maximum of 255 and a minimum
operating power of 150. -/
def injectionMotorPower (targetPressure : Int) : Int :=
  let power := cIntDiv (targetPressure * 255) 300
  let power := if power > 255 then 255 else power
  if power < 150 then 150 else power

/-- Monitoring loop of `injectSoil`: break with a log when the depth reading
reaches the target; break with the ERROR status when elapsed time exceeds
the 10000 ms deadline; otherwise delay 50 ms and poll again. -/
def injectLoop (depthAt : Nat → Int) (targetDepth : Int) :
    Nat → Nat → List Effect
  | _, 0 => []
  | k, fuel + 1 =>
    if depthAt k ≥ targetDepth then
      [.logInfo "Target depth reached"]
    else if k * 50 > 10000 then
      [.logError "Injection timeout - operation aborted",
       .statusMsg "ERROR" "Injection timeout"]
    else
      .delayMs 50 :: injectLoop depthAt targetDepth (k + 1) fuel

/-- Embedding of `injectSoil`: INJECTING status, set the motor duty from the
clamped pressure mapping, run the monitoring loop, then unconditionally
de-energize the motor and emit the COMPLETED status.  The timeout bounds the
loop at 202 iterations, so fuel 202 is sufficient. -/
def injectSoil (depthAt : Nat → Int) (targetDepth targetPressure : Int) :
    List Effect :=
  [.logInfo "Starting soil injection",
   .statusMsg "INJECTING" "Starting injection...",
   .setDuty (injectionMotorPower targetPressure)]
  ++ injectLoop depthAt targetDepth 0 202
  ++ [.setDuty 0,
      .logInfo "Injection operation completed",
      .statusMsg "COMPLETED" "Injection completed"]

/-- Embedding of the injection module's `processCommand`: dispatch "inject"
when both `params.depth` and `params.pressure` are numeric, handle
"retract" by stopping the motor, otherwise do nothing (no warning). -/
def processCommand_injection (env : InjectionEnv) (command : CJson) :
    List Effect :=
  let action := cJSON_GetObjectItem (some command) "action"
  if cJSON_IsString action && (jsonValueString action == "inject") then
    let params := cJSON_GetObjectItem (some command) "params"
    let depth := cJSON_GetObjectItem params "depth"
    let pressure := cJSON_GetObjectItem params "pressure"
    if cJSON_IsNumber depth && cJSON_IsNumber pressure then
      injectSoil env.depthAt (jsonValueInt depth) (jsonValueInt pressure)
    else []
  else if cJSON_IsString action && (jsonValueString action == "retract") then
    [.setDuty 0,
     .statusMsg "RETRACTING" "Retracting needle",
     .logInfo "Needle retraction initiated"]
  else []

/-! ## Greenhouse module (greenhouse_module.c) -/

def DEPLOY_PIN : Nat := 12
def RETRACT_PIN : Nat := 13

/-- Environment of greenhouse runs: position feedback GPIO readings at each
polling step of a deploy and of a retract run. -/
structure GreenhouseEnv where
  deployFeedbackAt : Nat → Nat
  retractFeedbackAt : Nat → Nat

/-- Waiting loop of `deployGreenhouse`: while the deploy feedback reads 0,
check the 5000 ms deadline; on timeout emit the ERROR status, de-energize
the deploy pin and return early (flag `true`), otherwise delay 100 ms and
poll again.  Flag `false` means the feedback arrived. -/
def deployLoop (feedbackAt : Nat → Nat) : Nat → Nat → List Effect × Bool
  | _, 0 => ([], false)
  | k, fuel + 1 =>
    if feedbackAt k = 0 then
      if k * 100 > 5000 then
        ([.statusMsg "ERROR" "Greenhouse deployment timeout",
          .setPin DEPLOY_PIN 0,
          .logError "Deployment timeout - operation aborted"], true)
      else
        let r := deployLoop feedbackAt (k + 1) fuel
        (.delayMs 100 :: r.1, r.2)
    else ([], false)

/-- Embedding of `deployGreenhouse`: DEPLOYING status, energize the deploy
pin, wait for the feedback; on timeout the loop already de-energized and the
function returned early, otherwise de-energize and emit the DEPLOYED status.
The 5000 ms deadline bounds the loop at 52 iterations. -/
def deployGreenhouse (feedbackAt : Nat → Nat) : List Effect :=
  let r := deployLoop feedbackAt 0 52
  [.statusMsg "DEPLOYING" "Deploying greenhouse...",
   .setPin DEPLOY_PIN 1]
  ++ r.1
  ++ (if r.2 then []
      else [.setPin DEPLOY_PIN 0,
            .logInfo "Greenhouse deployment completed successfully",
            .statusMsg "DEPLOYED" "Greenhouse deployment complete"])

/-- Waiting loop of `retractGreenhouse`, mirroring `deployLoop` on the
retract pin and feedback. -/
def retractLoop (feedbackAt : Nat → Nat) : Nat → Nat → List Effect × Bool
  | _, 0 => ([], false)
  | k, fuel + 1 =>
    if feedbackAt k = 0 then
      if k * 100 > 5000 then
        ([.statusMsg "ERROR" "Greenhouse retraction timeout",
          .setPin RETRACT_PIN 0,
          .logError "Retraction timeout - operation aborted"], true)
      else
        let r := retractLoop feedbackAt (k + 1) fuel
        (.delayMs 100 :: r.1, r.2)
    else ([], false)

/-- Embedding of `retractGreenhouse`, mirroring `deployGreenhouse`. -/
def retractGreenhouse (feedbackAt : Nat → Nat) : List Effect :=
  let r := retractLoop feedbackAt 0 52
  [.statusMsg "RETRACTING" "Retracting greenhouse...",
   .setPin RETRACT_PIN 1]
  ++ r.1
  ++ (if r.2 then []
      else [.setPin RETRACT_PIN 0,
            .logInfo "Greenhouse retraction completed successfully",
            .statusMsg "RETRACTED" "Greenhouse retraction complete"])

/-- Embedding of the greenhouse module's `processCommand`: log the command,
dispatch "deploy" and "retract", and log a warning for any other action. -/
def processCommand_greenhouse (env : GreenhouseEnv) (command : CJson) :
    List Effect :=
  let action := cJSON_GetObjectItem (some command) "action"
  .logInfo ("Executing command: " ++ jsonValueString action) ::
  (if cJSON_IsString action && (jsonValueString action == "deploy") then
    deployGreenhouse env.deployFeedbackAt
  else if cJSON_IsString action && (jsonValueString action == "retract") then
    retractGreenhouse env.retractFeedbackAt
  else
    [.logWarning ("Unknown command: " ++ jsonValueString action)])

/-! ## MQTT helper (mqtt_helper.cpp) -/

/-- Connection-relevant state of the MQTT helper: whether the broker is
connected and whether `esp_mqtt_client_init` produced a client handle.  The
helper keeps no record of issued subscriptions. -/
structure MqttHelperState where
  mqtt_connected : Bool
  clientInitialized : Bool
  deriving DecidableEq, Repr

/-- Embedding of `mqtt_helper_publish`: return false with no transport call
when disconnected or uninitialized; otherwise call the client publish, whose
external result is the message id `transportMsgId` (−1 on failure). -/
def mqtt_helper_publish (st : MqttHelperState) (topic : String)
    (transportMsgId : Int) : Bool × List Effect :=
  if !st.mqtt_connected || !st.clientInitialized then (false, [])
  else (transportMsgId != -1, [.transportPublish topic])

/-- Embedding of `mqtt_helper_subscribe`: same guard and shape as publish. -/
def mqtt_helper_subscribe (st : MqttHelperState) (topic : String)
    (transportMsgId : Int) : Bool × List Effect :=
  if !st.mqtt_connected || !st.clientInitialized then (false, [])
  else (transportMsgId != -1, [.transportSubscribe topic])

/-- Result of one `mqtt_helper_reconnect` call: reconnected (carrying the
final consecutive-failure counter), restarted via `esp_restart`, or the
supplied outcome trace ran out while still disconnected (carrying the
counter accumulated so far). -/
inductive ReconnectResult where
  | connected (attempts : Nat)
  | restarted
  | exhausted (attempts : Nat)
  deriving DecidableEq, Repr

/-- Embedding of `mqtt_helper_reconnect`.  `outcomes` is the trace of
results of the successive `mqtt_helper_connect_broker` attempts (an external
collaborator).  On success the helper notifies the registered callback with
the synthetic `internal/resubscribe` message and zeroes the counter; on
failure it increments the counter, delays 5 s, and restarts the process once
the counter reaches 5. -/
def reconnectRun (cb : Option (String → List Effect)) :
    Nat → List Bool → List Effect × ReconnectResult
  | attempts, [] => ([], .exhausted attempts)
  | attempts, ok :: rest =>
    if ok then
      (.logWarning "MQTT connection lost. Reconnecting..." ::
       .logInfo "Re-subscribing to topics" ::
       (match cb with
        | some f =>
          .callbackInvoked "internal/resubscribe" :: f "internal/resubscribe"
        | none => []),
       .connected 0)
    else if attempts + 1 ≥ 5 then
      ([.logWarning "MQTT connection lost. Reconnecting...",
        .delayMs 5000,
        .logError "Resetting after 5 failed attempts",
        .restartSignal],
       .restarted)
    else
      let r := reconnectRun cb (attempts + 1) rest
      (.logWarning "MQTT connection lost. Reconnecting..." ::
       .delayMs 5000 :: r.1, r.2)

/-! ## Lemmas about trace observables -/

theorem lastDrive_append (xs ys : List Effect) :
    lastDrive (xs ++ ys) =
      match lastDrive ys with
      | some v => some v
      | none => lastDrive xs := by
  induction xs with
  | nil => cases h : lastDrive ys <;> simp [lastDrive, h]
  | cons e rest ih =>
    cases e <;> simp [lastDrive, ih] <;>
      cases h : lastDrive ys <;> simp [h]

theorem lastDrive_append_right (xs ys : List Effect) (v : Int)
    (h : lastDrive ys = some v) : lastDrive (xs ++ ys) = some v := by
  rw [lastDrive_append, h]

theorem lastPinLevel_append (pin : Nat) (xs ys : List Effect) :
    lastPinLevel pin (xs ++ ys) =
      match lastPinLevel pin ys with
      | some v => some v
      | none => lastPinLevel pin xs := by
  induction xs with
  | nil => cases h : lastPinLevel pin ys <;> simp [lastPinLevel, h]
  | cons e rest ih =>
    cases e with
    | setPin p l =>
      by_cases hp : p = pin <;>
        simp [lastPinLevel, hp, ih] <;>
        cases h : lastPinLevel pin ys <;> simp [h]
    | _ => simpa [lastPinLevel] using ih

theorem statusStates_append (xs ys : List Effect) :
    statusStates (xs ++ ys) = statusStates xs ++ statusStates ys := by
  simp [statusStates]

theorem delaysTotal_append (xs ys : List Effect) :
    delaysTotal (xs ++ ys) = delaysTotal xs + delaysTotal ys := by
  simp [delaysTotal]

theorem delaysTotal_replicate (n d : Nat) :
    delaysTotal (List.replicate n (.delayMs d)) = n * d := by
  induction n with
  | zero => simp [delaysTotal]
  | succ m ih =>
    simp only [List.replicate_succ]
    have : delaysTotal (Effect.delayMs d :: List.replicate m (.delayMs d)) =
        d + delaysTotal (List.replicate m (.delayMs d)) := by
      simp [delaysTotal]
    rw [this, ih]
    ring

theorem statusStates_replicate_delay (n d : Nat) :
    statusStates (List.replicate n (.delayMs d)) = [] := by
  induction n with
  | zero => simp [statusStates]
  | succ m ih =>
    simp only [List.replicate_succ]
    simpa [statusStates] using ih

theorem timeOfFirstStatus_cons_other (s : String) (e : Effect)
    (l : List Effect) (h1 : ∀ st m, e ≠ Effect.statusMsg st m)
    (h2 : ∀ d, e ≠ Effect.delayMs d) :
    timeOfFirstStatus s (e :: l) = timeOfFirstStatus s l := by
  cases e <;>
    first
    | rfl
    | exact (h1 _ _ rfl).elim
    | exact (h2 _ rfl).elim

theorem delaysTotal_cons_other (e : Effect) (l : List Effect)
    (h2 : ∀ d, e ≠ Effect.delayMs d) :
    delaysTotal (e :: l) = delaysTotal l := by
  cases e <;>
    first
    | exact (h2 _ rfl).elim
    | simp [delaysTotal]

theorem timeOfFirstStatus_append (s : String) (xs ys : List Effect) :
    timeOfFirstStatus s (xs ++ ys) =
      match timeOfFirstStatus s xs with
      | some t => some t
      | none => (timeOfFirstStatus s ys).map (delaysTotal xs + ·) := by
  induction xs with
  | nil =>
    cases h : timeOfFirstStatus s ys <;>
      simp [timeOfFirstStatus, delaysTotal, h]
  | cons e rest ih =>
    cases e with
    | statusMsg st m =>
      by_cases hs : st = s
      · simp [timeOfFirstStatus, hs, delaysTotal]
      · simp only [List.cons_append, timeOfFirstStatus, List.append_eq,
          if_neg hs]
        rw [ih]
        cases h : timeOfFirstStatus s rest <;>
          cases h2 : timeOfFirstStatus s ys <;>
          simp [h, h2, delaysTotal]
    | delayMs d =>
      simp only [List.cons_append, timeOfFirstStatus, List.append_eq]
      rw [ih]
      cases h : timeOfFirstStatus s rest <;>
        cases h2 : timeOfFirstStatus s ys <;>
        simp [h, h2, delaysTotal] <;> omega
    | _ =>
      simp only [List.cons_append, timeOfFirstStatus, List.append_eq]
      rw [ih]
      cases h : timeOfFirstStatus s rest <;>
        cases h2 : timeOfFirstStatus s ys <;>
        simp [h, h2, delaysTotal]

theorem timeOfFirstStatus_replicate_delay (s : String) (n d : Nat) :
    timeOfFirstStatus s (List.replicate n (.delayMs d)) = none := by
  induction n with
  | zero => simp [timeOfFirstStatus]
  | succ m ih =>
    simp only [List.replicate_succ]
    simp [timeOfFirstStatus, ih]

/-! ## Loop lemmas for the actuator supervisors -/

theorem deployLoop_flag_true_lastPin (f : Nat → Nat) :
    ∀ fuel k, (deployLoop f k fuel).2 = true →
      lastPinLevel DEPLOY_PIN (deployLoop f k fuel).1 = some 0 := by
  intro fuel
  induction fuel with
  | zero => intro k h; simp [deployLoop] at h
  | succ m ih =>
    intro k h
    by_cases h0 : f k = 0
    · by_cases ht : k * 100 > 5000
      · simp [deployLoop, h0, ht, lastPinLevel, DEPLOY_PIN]
      · simp only [deployLoop, if_pos h0, if_neg ht] at h ⊢
        simpa [lastPinLevel] using ih (k + 1) h
    · simp [deployLoop, h0] at h

theorem deployLoop_flag_false_lastPin (f : Nat → Nat) :
    ∀ fuel k, (deployLoop f k fuel).2 = false →
      lastPinLevel DEPLOY_PIN (deployLoop f k fuel).1 = none := by
  intro fuel
  induction fuel with
  | zero => intro k _; simp [deployLoop, lastPinLevel]
  | succ m ih =>
    intro k h
    by_cases h0 : f k = 0
    · by_cases ht : k * 100 > 5000
      · simp [deployLoop, h0, ht] at h
      · simp only [deployLoop, if_pos h0, if_neg ht] at h ⊢
        simpa [lastPinLevel] using ih (k + 1) h
    · simp [deployLoop, h0, lastPinLevel]

/-- C1.  For every accepted actuator command and every environment (guard
readings, feedback readings, raw depth readings) and all parameters, the
actuator output is driven to level 0 by the end of the supervised run on
every terminal path: the spray nozzle duty, the injection motor duty, and
the greenhouse deploy pin all end at 0. -/
theorem c1_output_deenergized_on_all_paths
    (p : Nat → Nat) (d : Nat) (i : Int) (dAt : Nat → Int) (td tp : Int)
    (f : Nat → Nat) :
    lastDrive (sprayBubbles p d i) = some 0 ∧
    lastDrive (injectSoil dAt td tp) = some 0 ∧
    lastPinLevel DEPLOY_PIN (deployGreenhouse f) = some 0 := by
  refine ⟨?_, ?_, ?_⟩
  · simp [sprayBubbles, lastDrive_append, lastDrive]
  · simp [injectSoil, lastDrive_append, lastDrive]
  · rcases hre : deployLoop f 0 52 with ⟨es, flag⟩
    have h1 := deployLoop_flag_true_lastPin f 52 0
    have h2 := deployLoop_flag_false_lastPin f 52 0
    rw [hre] at h1 h2
    cases flag with
    | true =>
      have hes : lastPinLevel DEPLOY_PIN es = some 0 := h1 rfl
      simp [deployGreenhouse, hre, lastPinLevel_append, lastPinLevel, hes]
    | false =>
      simp [deployGreenhouse, hre, lastPinLevel_append, lastPinLevel,
        DEPLOY_PIN]

theorem sprayLoop_guard_break (p : Nat → Nat) (d : Nat) :
    ∀ n j fuel, (∀ m, m < n → p (j + m) ≠ 0) → p (j + n) = 0 →
      (j + n) * 100 < d → n < fuel →
      sprayLoop p d j fuel =
        List.replicate n (.delayMs 100) ++
        [.logError "Insufficient system pressure",
         .statusMsg "ERROR" "Insufficient system pressure"] := by
  intro n
  induction n with
  | zero =>
    intro j fuel _ h0 hlt hfuel
    cases fuel with
    | zero => omega
    | succ m =>
      simp only [sprayLoop]
      rw [if_pos (by omega : j * 100 < d),
        if_pos (by simpa using h0)]
      simp
  | succ k ih =>
    intro j fuel hgood h0 hlt hfuel
    cases fuel with
    | zero => omega
    | succ m =>
      simp only [sprayLoop]
      rw [if_pos (by omega : j * 100 < d),
        if_neg (by simpa using hgood 0 (Nat.succ_pos k))]
      rw [ih (j + 1) m
        (fun m' hm' => by
          have := hgood (m' + 1) (by omega)
          simpa [Nat.add_assoc, Nat.add_comm 1 m'] using this)
        (by
          have : j + 1 + k = j + (k + 1) := by omega
          rw [this]; exact h0)
        (by omega) (by omega)]
      simp [List.replicate_succ]

theorem injectLoop_timeout (dAt : Nat → Int) (td : Int)
    (hdepth : ∀ m, dAt m < td) :
    ∀ fuel j, j ≤ 201 → 201 - j < fuel →
      injectLoop dAt td j fuel =
        List.replicate (201 - j) (.delayMs 50) ++
        [.logError "Injection timeout - operation aborted",
         .statusMsg "ERROR" "Injection timeout"] := by
  intro fuel
  induction fuel with
  | zero => intro j _ h; omega
  | succ m ih =>
    intro j hj hfuel
    by_cases hj201 : j = 201
    · subst hj201
      simp only [injectLoop]
      rw [if_neg (by simpa using Int.not_le.mpr (hdepth 201)),
        if_pos (by omega : 201 * 50 > 10000)]
      simp
    · have hjlt : j < 201 := by omega
      simp only [injectLoop]
      rw [if_neg (by simpa using Int.not_le.mpr (hdepth j)),
        if_neg (by omega : ¬ j * 50 > 10000)]
      rw [ih (j + 1) (by omega) (by omega)]
      have hrep : 201 - j = (201 - (j + 1)) + 1 := by omega
      rw [hrep]
      simp [List.replicate_succ]

/-- C2 fails as stated: for the concrete spray run of scenario B (duration
1000 ms, guard reads good at steps 0 and 1 and bad at step 2, i.e. at
200 ms), the ERROR status naming the cause is emitted at 200 ms, but the
module then emits a COMPLETED status after the loop exits, so the terminal
status reported for the run is COMPLETED, not ERROR. -/
theorem c2_error_not_terminal_counterexample :
    statusStates (sprayBubbles (fun j => if j < 2 then 1 else 0) 1000 50) =
      ["SPRAYING", "ERROR", "COMPLETED"] ∧
    (statusStates
      (sprayBubbles (fun j => if j < 2 then 1 else 0) 1000 50)).getLast? =
      some "COMPLETED" ∧
    timeOfFirstStatus "ERROR"
      (sprayBubbles (fun j => if j < 2 then 1 else 0) 1000 50) =
      some 200 := by
  refine ⟨by decide, by decide, by decide⟩

/-- C2 as amended.  During an active spray run, if the guard sensor first
reports the unsafe state (a zero pressure-present reading) at polling step
`k` while the commanded duration has not yet elapsed, then the run breaks
out of its monitoring loop at that step: an ERROR status naming the cause is
emitted at time `k * 100` ms (not after the full duration), and the output
is de-energized immediately after the break.  However, the status trace is
SPRAYING, ERROR, COMPLETED — the module unconditionally emits COMPLETED
after the loop, so ERROR is not the terminal status of the run. -/
theorem c2_safety_abort_immediate (p : Nat → Nat) (d : Nat) (i : Int)
    (k : Nat) (hgood : ∀ j, j < k → p j ≠ 0) (hbad : p k = 0)
    (hin : k * 100 < d) :
    statusStates (sprayBubbles p d i) = ["SPRAYING", "ERROR", "COMPLETED"] ∧
    timeOfFirstStatus "ERROR" (sprayBubbles p d i) = some (k * 100) ∧
    lastDrive (sprayBubbles p d i) = some 0 := by
  have hloop := sprayLoop_guard_break p d k 0 (d + 1)
    (fun m hm => by simpa using hgood m hm) (by simpa using hbad)
    (by simpa using hin) (by omega)
  refine ⟨?_, ?_, ?_⟩
  · rw [sprayBubbles, hloop]
    simp only [statusStates_append, statusStates_replicate_delay]
    simp [statusStates]
  · rw [sprayBubbles, hloop]
    simp only [timeOfFirstStatus_append, timeOfFirstStatus_replicate_delay,
      delaysTotal_replicate]
    simp [timeOfFirstStatus, delaysTotal, Nat.mul_comm]
  · simp [sprayBubbles, lastDrive_append, lastDrive]

/-- Witness for `c2_safety_abort_immediate` at concrete parameters. -/
theorem c2_safety_abort_immediate_witness :
    statusStates (sprayBubbles (fun j => if j < 3 then 1 else 0) 1000 50) =
      ["SPRAYING", "ERROR", "COMPLETED"] ∧
    timeOfFirstStatus "ERROR"
      (sprayBubbles (fun j => if j < 3 then 1 else 0) 1000 50) =
      some 300 ∧
    lastDrive (sprayBubbles (fun j => if j < 3 then 1 else 0) 1000 50) =
      some 0 :=
  c2_safety_abort_immediate (fun j => if j < 3 then 1 else 0) 1000 50 3
    (by decide) (by decide) (by decide)

/-- C6 fails as stated for the injection class: for a concrete injection
run whose depth feedback never reaches the target, the timeout ERROR status
is emitted, but a COMPLETED status follows it, so ERROR is not the run's
terminal reported status. -/
theorem c6_timeout_not_terminal_counterexample :
    statusStates (injectSoil (fun _ => 0) 1 150) =
      ["INJECTING", "ERROR", "COMPLETED"] ∧
    (statusStates (injectSoil (fun _ => 0) 1 150)).getLast? =
      some "COMPLETED" ∧
    timeOfFirstStatus "ERROR" (injectSoil (fun _ => 0) 1 150) =
      some 10050 := by
  have hdz : ∀ m : Nat, (fun _ : Nat => (0 : Int)) m < 1 := by
    intro m
    show (0 : Int) < 1
    decide
  have hloop := injectLoop_timeout (fun _ => 0) 1 hdz 202 0 (by omega)
    (by omega)
  refine ⟨?_, ?_, ?_⟩
  · rw [injectSoil, hloop]
    simp only [statusStates_append, statusStates_replicate_delay]
    simp [statusStates]
  · rw [injectSoil, hloop]
    simp only [statusStates_append, statusStates_replicate_delay]
    simp [statusStates]
  · rw [injectSoil, hloop]
    simp only [timeOfFirstStatus_append, timeOfFirstStatus_replicate_delay,
      delaysTotal_replicate]
    simp [timeOfFirstStatus, delaysTotal]

/-- C6 as amended.  When completion feedback never arrives, a run times out
at the first polling step whose elapsed time strictly exceeds the fixed
deadline of its class — 5000 ms for the deploy class polled at 100 ms
(ERROR emitted at 5100 ms) and 10000 ms for the injection class polled at
50 ms (ERROR emitted at 10050 ms) — with the output de-energized.  For the
deploy class ERROR is the terminal reported status; for the injection class
the module emits a further COMPLETED status after the timeout abort, so
there ERROR is not terminal. -/
theorem c6_timeout_at_deadline (f : Nat → Nat) (dAt : Nat → Int)
    (td tp : Int) (hnf : ∀ j, f j = 0) (hnd : ∀ m, dAt m < td) :
    statusStates (deployGreenhouse f) = ["DEPLOYING", "ERROR"] ∧
    timeOfFirstStatus "ERROR" (deployGreenhouse f) = some 5100 ∧
    lastPinLevel DEPLOY_PIN (deployGreenhouse f) = some 0 ∧
    statusStates (injectSoil dAt td tp) =
      ["INJECTING", "ERROR", "COMPLETED"] ∧
    timeOfFirstStatus "ERROR" (injectSoil dAt td tp) = some 10050 ∧
    lastDrive (injectSoil dAt td tp) = some 0 := by
  have hf : f = fun _ => 0 := funext hnf
  subst hf
  have hloop := injectLoop_timeout dAt td hnd 202 0 (by omega) (by omega)
  refine ⟨by decide, by decide, by decide, ?_, ?_, ?_⟩
  · rw [injectSoil, hloop]
    simp only [statusStates_append, statusStates_replicate_delay]
    simp [statusStates]
  · rw [injectSoil, hloop]
    simp only [timeOfFirstStatus_append, timeOfFirstStatus_replicate_delay,
      delaysTotal_replicate]
    simp [timeOfFirstStatus, delaysTotal]
  · simp [injectSoil, lastDrive_append, lastDrive]

/-- Witness for `c6_timeout_at_deadline` with all feedback held away from
completion. -/
theorem c6_timeout_at_deadline_witness :
    statusStates (deployGreenhouse (fun _ => 0)) = ["DEPLOYING", "ERROR"] ∧
    timeOfFirstStatus "ERROR" (deployGreenhouse (fun _ => 0)) =
      some 5100 ∧
    lastPinLevel DEPLOY_PIN (deployGreenhouse (fun _ => 0)) = some 0 ∧
    statusStates (injectSoil (fun _ => 0) 4096 150) =
      ["INJECTING", "ERROR", "COMPLETED"] ∧
    timeOfFirstStatus "ERROR" (injectSoil (fun _ => 0) 4096 150) =
      some 10050 ∧
    lastDrive (injectSoil (fun _ => 0) 4096 150) = some 0 :=
  c6_timeout_at_deadline (fun _ => 0) (fun _ => 0) 4096 150
    (fun _ => rfl)
    (by
      intro m
      show (0 : Int) < 4096
      decide)

theorem injectionMotorPower_bounds (t : Int) :
    150 ≤ injectionMotorPower t ∧ injectionMotorPower t ≤ 255 := by
  simp only [injectionMotorPower]
  generalize cIntDiv (t * 255) 300 = a
  constructor <;> (split_ifs <;> omega)

/-- C8 fails as stated: the spray module's intensity-to-duty mapping is not
clamped.  For the out-of-range intensity 200 the computed duty is 510,
outside the 0-255 duty range, and for the out-of-range intensity −10 the
computed duty is the negative value −25. -/
theorem c8_spray_mapping_unclamped_counterexample :
    sprayPwmValue 200 = 510 ∧ ¬ sprayPwmValue 200 ≤ 255 ∧
    sprayPwmValue (-10) = -25 ∧ ¬ 0 ≤ sprayPwmValue (-10) :=
  ⟨by decide, by decide, by decide, by decide⟩

/-- C8 as amended.  The injection module's pressure-to-power mapping is
clamped to the safe band 150..255 for every parameter value, including
out-of-range ones; the spray module's percentage-to-duty mapping is not
clamped, and lies inside the 0..255 duty range only when the commanded
intensity is itself in range 0..100. -/
theorem c8_drive_level_mapping (tp i : Int) (h0 : 0 ≤ i) (h100 : i ≤ 100) :
    150 ≤ injectionMotorPower tp ∧ injectionMotorPower tp ≤ 255 ∧
    0 ≤ sprayPwmValue i ∧ sprayPwmValue i ≤ 255 := by
  obtain ⟨ha, hb⟩ := injectionMotorPower_bounds tp
  have hdiv : sprayPwmValue i = (i * 255) / 100 := by
    unfold sprayPwmValue cIntDiv
    exact Int.tdiv_eq_ediv (mul_nonneg h0 (by norm_num)) (by norm_num)
  refine ⟨ha, hb, ?_, ?_⟩ <;> rw [hdiv] <;> omega

/-- Witness for `c8_drive_level_mapping` at an out-of-range pressure target
and an in-range intensity. -/
theorem c8_drive_level_mapping_witness :
    150 ≤ injectionMotorPower 600 ∧ injectionMotorPower 600 ≤ 255 ∧
    0 ≤ sprayPwmValue 50 ∧ sprayPwmValue 50 ≤ 255 :=
  c8_drive_level_mapping 600 50 (by decide) (by decide)

/-- C10.  For every topic: when the broker connection is down or the MQTT
client is uninitialized, `mqtt_helper_publish` and `mqtt_helper_subscribe`
return false and perform no transport call; when connected with an
initialized client they perform exactly the underlying transport call and
report its message-id result. -/
theorem c10_publish_subscribe_guard (st : MqttHelperState) (topic : String)
    (msgId : Int) :
    (st.mqtt_connected = false ∨ st.clientInitialized = false →
      mqtt_helper_publish st topic msgId = (false, []) ∧
      mqtt_helper_subscribe st topic msgId = (false, [])) ∧
    (st.mqtt_connected = true → st.clientInitialized = true →
      mqtt_helper_publish st topic msgId =
        (msgId != -1, [.transportPublish topic]) ∧
      mqtt_helper_subscribe st topic msgId =
        (msgId != -1, [.transportSubscribe topic])) := by
  constructor
  · intro h
    rcases h with h | h <;>
      simp [mqtt_helper_publish, mqtt_helper_subscribe, h]
  · intro h1 h2
    simp [mqtt_helper_publish, mqtt_helper_subscribe, h1, h2]

/-- Witness for `c10_publish_subscribe_guard`: a disconnected helper
refuses to publish, a connected and initialized helper publishes. -/
theorem c10_publish_subscribe_guard_witness :
    mqtt_helper_publish ⟨false, true⟩ "exoskeleton/bubble/status" 1 =
      (false, []) ∧
    mqtt_helper_publish ⟨true, true⟩ "exoskeleton/bubble/status" 1 =
      ((1 : Int) != -1,
        [.transportPublish "exoskeleton/bubble/status"]) :=
  ⟨((c10_publish_subscribe_guard ⟨false, true⟩ "exoskeleton/bubble/status"
      1).1 (Or.inl rfl)).1,
   ((c10_publish_subscribe_guard ⟨true, true⟩ "exoskeleton/bubble/status"
      1).2 rfl rfl).1⟩

/-! ## Reconnect-loop lemmas -/

theorem reconnectRun_cons_true (cb : Option (String → List Effect))
    (a : Nat) (rest : List Bool) :
    reconnectRun cb a (true :: rest) =
      (.logWarning "MQTT connection lost. Reconnecting..." ::
       .logInfo "Re-subscribing to topics" ::
       (match cb with
        | some f =>
          .callbackInvoked "internal/resubscribe" :: f "internal/resubscribe"
        | none => []),
       .connected 0) := by
  simp [reconnectRun]

theorem reconnectRun_cons_false_step (cb : Option (String → List Effect))
    (a : Nat) (rest : List Bool) (hth : ¬ a + 1 ≥ 5) :
    reconnectRun cb a (false :: rest) =
      (.logWarning "MQTT connection lost. Reconnecting..." ::
       .delayMs 5000 :: (reconnectRun cb (a + 1) rest).1,
       (reconnectRun cb (a + 1) rest).2) := by
  simp [reconnectRun, hth]

theorem reconnectRun_cons_false_restart (cb : Option (String → List Effect))
    (a : Nat) (rest : List Bool) (hth : a + 1 ≥ 5) :
    reconnectRun cb a (false :: rest) =
      ([.logWarning "MQTT connection lost. Reconnecting...",
        .delayMs 5000,
        .logError "Resetting after 5 failed attempts",
        .restartSignal],
       .restarted) := by
  simp [reconnectRun, hth]

theorem reconnectRun_restarted_iff (cb : Option (String → List Effect)) :
    ∀ (trace : List Bool) (a : Nat), a < 5 →
      ((reconnectRun cb a trace).2 = .restarted ↔
        trace.take (5 - a) = List.replicate (5 - a) false) := by
  intro trace
  induction trace with
  | nil =>
    intro a ha
    have h5 : 5 - a = (4 - a) + 1 := by omega
    simp [reconnectRun, h5, List.replicate_succ]
  | cons ok rest ih =>
    intro a ha
    have h5 : 5 - a = (4 - a) + 1 := by omega
    cases ok with
    | true => simp [reconnectRun_cons_true, h5, List.replicate_succ]
    | false =>
      by_cases hth : a + 1 ≥ 5
      · have ha4 : a = 4 := by omega
        subst ha4
        simp [reconnectRun_cons_false_restart cb 4 rest hth,
          List.replicate_succ]
      · have hlt : a + 1 < 5 := by omega
        have h4 : 4 - a = 5 - (a + 1) := by omega
        rw [reconnectRun_cons_false_step cb a rest hth]
        show (reconnectRun cb (a + 1) rest).2 = .restarted ↔ _
        rw [ih (a + 1) hlt, h5, List.replicate_succ, List.take_succ_cons,
          h4]
        simp

theorem reconnectRun_restartCount (cb : Option (String → List Effect))
    (hcb : ∀ s, restartCount
      (match cb with | some f => f s | none => []) = 0) :
    ∀ (trace : List Bool) (a : Nat),
      restartCount (reconnectRun cb a trace).1 =
        (if (reconnectRun cb a trace).2 = .restarted then 1 else 0) := by
  intro trace
  induction trace with
  | nil => intro a; simp [reconnectRun, restartCount]
  | cons ok rest ih =>
    intro a
    cases ok with
    | true =>
      rw [reconnectRun_cons_true]
      have hval := hcb "internal/resubscribe"
      cases cb with
      | none => simp [restartCount, List.countP_cons]
      | some f =>
        simp only [restartCount, List.countP_cons] at hval ⊢
        simp [hval]
    | false =>
      by_cases hth : a + 1 ≥ 5
      · rw [reconnectRun_cons_false_restart cb a rest hth]
        simp [restartCount, List.countP_cons]
      · rw [reconnectRun_cons_false_step cb a rest hth]
        show restartCount (_ :: _ :: (reconnectRun cb (a + 1) rest).1) = _
        simp only [restartCount, List.countP_cons] at ih ⊢
        simp [ih (a + 1)]

theorem reconnectRun_all_failures_exhausted
    (cb : Option (String → List Effect)) :
    ∀ (k a : Nat), a + k < 5 →
      (reconnectRun cb a (List.replicate k false)).2 = .exhausted (a + k) := by
  intro k
  induction k with
  | zero => intro a _; simp [reconnectRun]
  | succ m ih =>
    intro a ha
    rw [List.replicate_succ,
      reconnectRun_cons_false_step cb a _ (by omega)]
    show (reconnectRun cb (a + 1) (List.replicate m false)).2 = _
    rw [ih (a + 1) (by omega)]
    congr 1
    omega

theorem reconnectRun_success_connected
    (cb : Option (String → List Effect)) :
    ∀ (k : Nat) (a : Nat) (rest : List Bool), a + k < 5 →
      (reconnectRun cb a (List.replicate k false ++ true :: rest)).2 =
        .connected 0 := by
  intro k
  induction k with
  | zero =>
    intro a rest _
    simp [reconnectRun_cons_true]
  | succ m ih =>
    intro a rest ha
    rw [List.replicate_succ, List.cons_append,
      reconnectRun_cons_false_step cb a _ (by omega)]
    exact ih (a + 1) rest (by omega)

/-- C4.  Starting from the disconnected state with a zero counter: each
failed reconnect cycle increments the consecutive-failure counter; a trace
beginning with 5 failures produces the restart outcome with exactly one
restart signal (the restart fires at the 5th failed cycle, never later);
restart occurs exactly when the first 5 attempts all fail; and a success
within the first 5 attempts yields the connected outcome with the counter
reset to zero and no restart.  The callback hypothesis states that the
module resubscription callback itself emits no restart signal, as is true
of all three module callbacks. -/
theorem c4_restart_after_five_failures
    (cb : Option (String → List Effect))
    (hcb : ∀ s, restartCount
      (match cb with | some f => f s | none => []) = 0) :
    (∀ rest : List Bool,
      (reconnectRun cb 0 (List.replicate 5 false ++ rest)).2 = .restarted ∧
      restartCount
        (reconnectRun cb 0 (List.replicate 5 false ++ rest)).1 = 1) ∧
    (∀ trace : List Bool,
      (reconnectRun cb 0 trace).2 = .restarted ↔
        trace.take 5 = List.replicate 5 false) ∧
    (∀ k : Nat, k < 5 →
      (reconnectRun cb 0 (List.replicate k false)).2 = .exhausted k) ∧
    (∀ (k : Nat) (rest : List Bool), k < 5 →
      (reconnectRun cb 0 (List.replicate k false ++ true :: rest)).2 =
        .connected 0 ∧
      restartCount
        (reconnectRun cb 0 (List.replicate k false ++ true :: rest)).1 =
        0) := by
  have hiff := reconnectRun_restarted_iff cb
  have hcount := reconnectRun_restartCount cb hcb
  refine ⟨?_, ?_, ?_, ?_⟩
  · intro rest
    have hres : (reconnectRun cb 0 (List.replicate 5 false ++ rest)).2 =
        .restarted := by
      rw [hiff (List.replicate 5 false ++ rest) 0 (by omega)]
      simpa using List.take_left (List.replicate 5 false) rest
    refine ⟨hres, ?_⟩
    rw [hcount, if_pos hres]
  · intro trace
    simpa using hiff trace 0 (by omega)
  · intro k hk
    simpa using reconnectRun_all_failures_exhausted cb k 0 (by omega)
  · intro k rest hk
    have hres := reconnectRun_success_connected cb k 0 rest (by omega)
    refine ⟨hres, ?_⟩
    rw [hcount, if_neg (by rw [hres]; intro hcon; cases hcon)]

/-- Witness for `c4_restart_after_five_failures` with no registered
callback, exercised at a five-failure trace, a shorter all-failure trace,
and a failure-then-success trace. -/
theorem c4_restart_after_five_failures_witness :
    (reconnectRun none 0
      [false, false, false, false, false]).2 = .restarted ∧
    restartCount
      (reconnectRun none 0 [false, false, false, false, false]).1 = 1 ∧
    (reconnectRun none 0 [false, false]).2 = .exhausted 2 ∧
    (reconnectRun none 0 [false, false, true]).2 = .connected 0 ∧
    restartCount (reconnectRun none 0 [false, false, true]).1 = 0 := by
  have h := c4_restart_after_five_failures none (fun _ => rfl)
  have h1 := h.1 []
  have h3 := h.2.2.1 2 (by omega)
  have h4 := h.2.2.2 2 [] (by omega)
  refine ⟨?_, ?_, ?_, ?_, ?_⟩
  · simpa using h1.1
  · simpa using h1.2
  · simpa using h3
  · simpa using h4.1
  · simpa using h4.2

/-! ## Subscription-restoration lemmas -/

theorem subscribesIn_reconnect_none :
    ∀ (trace : List Bool) (a : Nat),
      subscribesIn (reconnectRun none a trace).1 = [] := by
  intro trace
  induction trace with
  | nil => intro a; simp [reconnectRun, subscribesIn]
  | cons ok rest ih =>
    intro a
    cases ok with
    | true => rw [reconnectRun_cons_true]; simp [subscribesIn]
    | false =>
      by_cases hth : a + 1 ≥ 5
      · rw [reconnectRun_cons_false_restart none a rest hth]
        simp [subscribesIn]
      · rw [reconnectRun_cons_false_step none a rest hth]
        show subscribesIn (_ :: _ :: (reconnectRun none (a + 1) rest).1) = []
        simpa [subscribesIn] using ih (a + 1)

theorem subscribesIn_reconnect_some (cb : String → List Effect) :
    ∀ (trace : List Bool) (a : Nat),
      subscribesIn (reconnectRun (some cb) a trace).1 =
        (match (reconnectRun (some cb) a trace).2 with
         | .connected _ => subscribesIn (cb "internal/resubscribe")
         | _ => []) := by
  intro trace
  induction trace with
  | nil => intro a; simp [reconnectRun, subscribesIn]
  | cons ok rest ih =>
    intro a
    cases ok with
    | true => rw [reconnectRun_cons_true]; simp [subscribesIn]
    | false =>
      by_cases hth : a + 1 ≥ 5
      · rw [reconnectRun_cons_false_restart (some cb) a rest hth]
        simp [subscribesIn]
      · rw [reconnectRun_cons_false_step (some cb) a rest hth]
        show subscribesIn
            (_ :: _ :: (reconnectRun (some cb) (a + 1) rest).1) = _
        simpa [subscribesIn] using ih (a + 1)

theorem reconnect_connected_invokes_callback (cb : String → List Effect) :
    ∀ (trace : List Bool) (a : Nat),
      (reconnectRun (some cb) a trace).2 = .connected 0 →
      Effect.callbackInvoked "internal/resubscribe" ∈
        (reconnectRun (some cb) a trace).1 := by
  intro trace
  induction trace with
  | nil => intro a h; simp [reconnectRun] at h
  | cons ok rest ih =>
    intro a h
    cases ok with
    | true => rw [reconnectRun_cons_true]; simp
    | false =>
      by_cases hth : a + 1 ≥ 5
      · rw [reconnectRun_cons_false_restart (some cb) a rest hth] at h
        simp at h
      · rw [reconnectRun_cons_false_step (some cb) a rest hth] at h ⊢
        exact List.mem_cons_of_mem _
          (List.mem_cons_of_mem _ (ih (a + 1) h))

/-- C5 fails as stated: the helper keeps no subscription registry of its
own.  On a successful reconnection with no registered callback, no
subscription is reissued at all, and with the bubble module's callback
registered, the single reissued subscription is produced by invoking the
application callback with the synthetic internal/resubscribe message — the
manager asks the application layer to re-issue what it subscribed to. -/
theorem c5_no_registry_counterexample :
    (reconnectRun none 0 [true]).2 = .connected 0 ∧
    subscribesIn (reconnectRun none 0 [true]).1 = [] ∧
    (reconnectRun
      (some (fun t => mqttCallback_bubble ⟨fun _ => 1⟩ t none)) 0
      [true]).1 =
      [.logWarning "MQTT connection lost. Reconnecting...",
       .logInfo "Re-subscribing to topics",
       .callbackInvoked "internal/resubscribe",
       .logInfo "Resubscribing to command topic",
       .transportSubscribe "exoskeleton/bubble/command"] :=
  ⟨by decide, by decide, by decide⟩

/-- C5 as amended.  On every successful reconnection the helper replays no
registry of its own (with no callback registered, no subscription is ever
reissued); every subscription reissued during a reconnect run is exactly
what the registered application callback performs when invoked with the
synthetic internal/resubscribe message, and reaching the connected outcome
invokes that callback. -/
theorem c5_resubscription_via_application_callback
    (cb : String → List Effect) (trace : List Bool) (a : Nat) :
    subscribesIn (reconnectRun none a trace).1 = [] ∧
    subscribesIn (reconnectRun (some cb) a trace).1 =
      (match (reconnectRun (some cb) a trace).2 with
       | .connected _ => subscribesIn (cb "internal/resubscribe")
       | _ => []) ∧
    ((reconnectRun (some cb) a trace).2 = .connected 0 →
      Effect.callbackInvoked "internal/resubscribe" ∈
        (reconnectRun (some cb) a trace).1) :=
  ⟨subscribesIn_reconnect_none trace a,
   subscribesIn_reconnect_some cb trace a,
   reconnect_connected_invokes_callback cb trace a⟩

/-- Witness for `c5_resubscription_via_application_callback` with the
bubble module's callback and an immediately-successful trace. -/
theorem c5_resubscription_via_application_callback_witness :
    subscribesIn (reconnectRun none 0 [true]).1 = [] ∧
    subscribesIn (reconnectRun
        (some (fun t => mqttCallback_bubble ⟨fun _ => 1⟩ t none)) 0
        [true]).1 =
      subscribesIn
        (mqttCallback_bubble ⟨fun _ => 1⟩ "internal/resubscribe" none) ∧
    Effect.callbackInvoked "internal/resubscribe" ∈
      (reconnectRun
        (some (fun t => mqttCallback_bubble ⟨fun _ => 1⟩ t none)) 0
        [true]).1 := by
  have h := c5_resubscription_via_application_callback
    (fun t => mqttCallback_bubble ⟨fun _ => 1⟩ t none) [true] 0
  exact ⟨h.1, by simpa using h.2.1, h.2.2 (by decide)⟩

/-! ## Inbound command validation (C9) -/

/-- C9 fails as stated on the bubble module: an unknown action value is
ignored but no warning is logged (the handler produces no effect at all),
whereas the greenhouse module does log a warning for an unknown action. -/
theorem c9_unknown_action_counterexample :
    processCommand_bubble ⟨fun _ => 1⟩
      (.jobj [("action", .jstr "foo")]) = [] ∧
    processCommand_greenhouse ⟨fun _ => 1, fun _ => 1⟩
      (.jobj [("action", .jstr "foo")]) =
      [.logInfo "Executing command: foo",
       .logWarning "Unknown command: foo"] :=
  ⟨rfl, rfl⟩

/-- C9 as amended.  A payload that fails to decode produces only an error
log and dispatches no command; the bubble module dispatches a command only
when the action is the string "spray" and both required params fields are
numeric (otherwise it produces no effect at all — no partial execution);
the greenhouse module logs a warning for an unknown action value, while the
bubble module drops unknown actions silently, with no warning. -/
theorem c9_malformed_commands_dropped :
    (∀ (env : BubbleEnv) (topic : String),
      topic ≠ "internal/resubscribe" →
      mqttCallback_bubble env topic none =
        [.logError "JSON parsing failed"]) ∧
    (∀ (env : BubbleEnv) (cmd : CJson),
      processCommand_bubble env cmd ≠ [] →
      cJSON_IsString (cJSON_GetObjectItem (some cmd) "action") = true ∧
      jsonValueString (cJSON_GetObjectItem (some cmd) "action") = "spray" ∧
      cJSON_IsNumber (cJSON_GetObjectItem
        (cJSON_GetObjectItem (some cmd) "params") "duration") = true ∧
      cJSON_IsNumber (cJSON_GetObjectItem
        (cJSON_GetObjectItem (some cmd) "params") "intensity") = true) ∧
    (∀ (env : GreenhouseEnv) (cmd : CJson) (s : String),
      cJSON_GetObjectItem (some cmd) "action" = some (.jstr s) →
      s ≠ "deploy" → s ≠ "retract" →
      processCommand_greenhouse env cmd =
        [.logInfo ("Executing command: " ++ s),
         .logWarning ("Unknown command: " ++ s)]) ∧
    (∀ (env : BubbleEnv) (cmd : CJson) (s : String),
      cJSON_GetObjectItem (some cmd) "action" = some (.jstr s) →
      s ≠ "spray" → processCommand_bubble env cmd = []) := by
  refine ⟨?_, ?_, ?_, ?_⟩
  · intro env topic h
    rw [mqttCallback_bubble, if_neg (by simpa using h)]
  · intro env cmd h
    by_cases h1 : (cJSON_IsString (cJSON_GetObjectItem (some cmd) "action")
        && (jsonValueString (cJSON_GetObjectItem (some cmd) "action") ==
          "spray")) = true
    · by_cases h2 : (cJSON_IsNumber (cJSON_GetObjectItem
          (cJSON_GetObjectItem (some cmd) "params") "duration") &&
          cJSON_IsNumber (cJSON_GetObjectItem
            (cJSON_GetObjectItem (some cmd) "params") "intensity")) = true
      · rw [Bool.and_eq_true] at h1 h2
        exact ⟨h1.1, by simpa using h1.2, h2.1, h2.2⟩
      · exfalso
        apply h
        simp only [processCommand_bubble]
        rw [if_pos h1, if_neg h2]
    · exfalso
      apply h
      simp only [processCommand_bubble]
      rw [if_neg h1]
  · intro env cmd s hact hs1 hs2
    simp [processCommand_greenhouse, hact, cJSON_IsString,
      jsonValueString, hs1, hs2]
  · intro env cmd s hact hs
    simp [processCommand_bubble, hact, cJSON_IsString, jsonValueString, hs]

/-- Witness for `c9_malformed_commands_dropped`: a failed parse on the
command topic, a well-formed spray command, and an unknown action at both
modules. -/
theorem c9_malformed_commands_dropped_witness :
    mqttCallback_bubble ⟨fun _ => 1⟩ "exoskeleton/bubble/command" none =
      [.logError "JSON parsing failed"] ∧
    (cJSON_IsString (cJSON_GetObjectItem
        (some (.jobj [("action", .jstr "spray"),
          ("params", .jobj [("duration", .jnum 100),
            ("intensity", .jnum 50)])])) "action") = true ∧
      jsonValueString (cJSON_GetObjectItem
        (some (.jobj [("action", .jstr "spray"),
          ("params", .jobj [("duration", .jnum 100),
            ("intensity", .jnum 50)])])) "action") = "spray" ∧
      cJSON_IsNumber (cJSON_GetObjectItem (cJSON_GetObjectItem
        (some (.jobj [("action", .jstr "spray"),
          ("params", .jobj [("duration", .jnum 100),
            ("intensity", .jnum 50)])])) "params") "duration") = true ∧
      cJSON_IsNumber (cJSON_GetObjectItem (cJSON_GetObjectItem
        (some (.jobj [("action", .jstr "spray"),
          ("params", .jobj [("duration", .jnum 100),
            ("intensity", .jnum 50)])])) "params") "intensity") = true) ∧
    processCommand_greenhouse ⟨fun _ => 1, fun _ => 1⟩
      (.jobj [("action", .jstr "shade")]) =
      [.logInfo "Executing command: shade",
       .logWarning "Unknown command: shade"] ∧
    processCommand_bubble ⟨fun _ => 1⟩
      (.jobj [("action", .jstr "shade")]) = [] := by
  obtain ⟨ha, hb, hc, hd⟩ := c9_malformed_commands_dropped
  refine ⟨ha ⟨fun _ => 1⟩ "exoskeleton/bubble/command" (by decide),
    hb ⟨fun _ => 1⟩ _ (by decide), ?_, ?_⟩
  · exact hc ⟨fun _ => 1, fun _ => 1⟩ _ "shade" rfl (by decide) (by decide)
  · exact hd ⟨fun _ => 1⟩ _ "shade" rfl (by decide)

/-! ## Sequential command handling (C3) -/

theorem driveAfter_append (c : Int) (xs ys : List Effect) :
    driveAfter c (xs ++ ys) = driveAfter (driveAfter c xs) ys := by
  induction xs generalizing c with
  | nil => simp [driveAfter]
  | cons e rest ih =>
    cases e with
    | setDuty l => simp [driveAfter, ih]
    | _ => simp [driveAfter, ih]

theorem runStartsDeenergized_append (c : Int) (xs ys : List Effect) :
    runStartsDeenergized c (xs ++ ys) =
      (runStartsDeenergized c xs &&
        runStartsDeenergized (driveAfter c xs) ys) := by
  induction xs generalizing c with
  | nil => simp [runStartsDeenergized, driveAfter]
  | cons e rest ih =>
    cases e with
    | setDuty l => simp [runStartsDeenergized, driveAfter, ih]
    | statusMsg s m =>
      simp [runStartsDeenergized, driveAfter, ih, Bool.and_assoc]
    | _ => simp [runStartsDeenergized, driveAfter, ih]

theorem sprayLoop_no_drive (p : Nat → Nat) (d : Nat) :
    ∀ (fuel k : Nat) (c : Int),
      driveAfter c (sprayLoop p d k fuel) = c ∧
      runStartsDeenergized c (sprayLoop p d k fuel) = true := by
  intro fuel
  induction fuel with
  | zero => intro k c; simp [sprayLoop, driveAfter, runStartsDeenergized]
  | succ m ih =>
    intro k c
    by_cases hg : k * 100 < d
    · by_cases hp : p k = 0
      · simp [sprayLoop, hg, hp, driveAfter, runStartsDeenergized]
      · simp only [sprayLoop, if_pos hg, if_neg hp]
        simpa [driveAfter, runStartsDeenergized] using ih (k + 1) c
    · simp [sprayLoop, hg, driveAfter, runStartsDeenergized]

theorem sprayBubbles_clean (p : Nat → Nat) (d : Nat) (i : Int) :
    driveAfter 0 (sprayBubbles p d i) = 0 ∧
    runStartsDeenergized 0 (sprayBubbles p d i) = true := by
  obtain ⟨hd, hr⟩ := sprayLoop_no_drive p d (d + 1) 0 (sprayPwmValue i)
  constructor
  · simp [sprayBubbles, driveAfter_append, driveAfter, hd]
  · simp [sprayBubbles, runStartsDeenergized_append, runStartsDeenergized,
      driveAfter_append, driveAfter, hd, hr]

theorem mqttCallback_bubble_clean (env : BubbleEnv) (topic : String)
    (payload : Option CJson) :
    driveAfter 0 (mqttCallback_bubble env topic payload) = 0 ∧
    runStartsDeenergized 0 (mqttCallback_bubble env topic payload) =
      true := by
  unfold mqttCallback_bubble
  by_cases ht : (topic == "internal/resubscribe") = true
  · rw [if_pos ht]
    exact ⟨rfl, rfl⟩
  · rw [if_neg ht]
    cases payload with
    | none => exact ⟨rfl, rfl⟩
    | some json =>
      dsimp only
      by_cases ht2 : (topic == TOPIC_COMMAND_bubble) = true
      · rw [if_pos ht2]
        simp only [processCommand_bubble]
        split_ifs
        · exact sprayBubbles_clean env.pressureAt _ _
        · exact ⟨rfl, rfl⟩
        · exact ⟨rfl, rfl⟩
      · rw [if_neg ht2]
        exact ⟨rfl, rfl⟩

theorem handleMessages_bubble_aux (env : BubbleEnv) :
    ∀ (msgs : List (String × Option CJson)) (acc : List Effect),
      runStartsDeenergized 0 acc = true → driveAfter 0 acc = 0 →
      runStartsDeenergized 0
        (msgs.foldl
          (fun acc m => acc ++ mqttCallback_bubble env m.1 m.2) acc) =
        true := by
  intro msgs
  induction msgs with
  | nil => intro acc h1 _; exact h1
  | cons m rest ih =>
    intro acc h1 h2
    apply ih
    · rw [runStartsDeenergized_append, h1, h2,
        (mqttCallback_bubble_clean env m.1 m.2).2]
      rfl
    · rw [driveAfter_append, h2, (mqttCallback_bubble_clean env m.1 m.2).1]

/-- C3 fails as stated: the bubble module has no busy rejection.  Two
well-formed spray commands delivered in sequence are both executed — the
second is neither rejected nor dropped, and its run has full side effects
(two SPRAYING/COMPLETED cycles and four duty writes appear in the trace). -/
theorem c3_no_busy_rejection_counterexample :
    statusStates (handleMessages_bubble ⟨fun _ => 1⟩
      [("exoskeleton/bubble/command", some (.jobj [("action", .jstr "spray"),
          ("params", .jobj [("duration", .jnum 100),
            ("intensity", .jnum 50)])])),
       ("exoskeleton/bubble/command", some (.jobj [("action", .jstr "spray"),
          ("params", .jobj [("duration", .jnum 100),
            ("intensity", .jnum 50)])]))]) =
      ["SPRAYING", "COMPLETED", "SPRAYING", "COMPLETED"] ∧
    (handleMessages_bubble ⟨fun _ => 1⟩
      [("exoskeleton/bubble/command", some (.jobj [("action", .jstr "spray"),
          ("params", .jobj [("duration", .jnum 100),
            ("intensity", .jnum 50)])])),
       ("exoskeleton/bubble/command", some (.jobj [("action", .jstr "spray"),
          ("params", .jobj [("duration", .jnum 100),
            ("intensity", .jnum 50)])]))]).countP
      (fun e => match e with | .setDuty _ => true | _ => false) = 4 :=
  ⟨by decide, by decide⟩

/-- C3 as amended.  Message dispatch is sequential: a command arriving
while a run is active is deferred, not rejected — its effects are appended
after the in-flight run's effects — and no spray run ever starts while the
nozzle output of a previous run is still energized (every run leaves the
output at 0 before the next run starts). -/
theorem c3_commands_serialized_not_rejected (env : BubbleEnv)
    (msgs : List (String × Option CJson))
    (m : String × Option CJson) :
    runStartsDeenergized 0 (handleMessages_bubble env msgs) = true ∧
    handleMessages_bubble env (msgs ++ [m]) =
      handleMessages_bubble env msgs ++ mqttCallback_bubble env m.1 m.2 := by
  constructor
  · exact handleMessages_bubble_aux env msgs [] rfl rfl
  · simp [handleMessages_bubble, List.foldl_append]

/-! ## Moving-average filter lemmas (C7) -/

theorem getD_set_ne_q (l : List ℚ) (i k : Nat) (x : ℚ) (h : i ≠ k) :
    (l.set i x).getD k 0 = l.getD k 0 := by
  simp [List.getD_eq_getElem?_getD, List.getElem?_set_ne h]

theorem getD_set_self_q (l : List ℚ) (i : Nat) (x : ℚ) (h : i < l.length) :
    (l.set i x).getD i 0 = x := by
  simp [List.getD_eq_getElem?_getD, List.getElem?_set_self h]

theorem getD_append_left_q (l m : List ℚ) (k : Nat) (h : k < l.length) :
    (l ++ m).getD k 0 = l.getD k 0 := by
  simp [List.getD_eq_getElem?_getD, List.getElem?_append_left h]

theorem getD_append_right_q (l m : List ℚ) (k : Nat) (h : l.length ≤ k) :
    (l ++ m).getD k 0 = m.getD (k - l.length) 0 := by
  simp [List.getD_eq_getElem?_getD, List.getElem?_append_right h]

theorem getD_tail_q (l : List ℚ) (k : Nat) :
    l.tail.getD k 0 = l.getD (k + 1) 0 := by
  simp [List.getD_eq_getElem?_getD, List.getElem?_tail]

theorem sum_take_getD (l : List ℚ) (n : Nat) :
    (l.take n).sum = ∑ k in Finset.range n, l.getD k 0 := by
  induction n with
  | zero => simp
  | succ m ih =>
    rw [List.take_succ, List.sum_append, ih, Finset.sum_range_succ]
    congr 1
    cases h : l[m]? with
    | none => simp [List.getD_eq_getElem?_getD, h]
    | some a => simp [List.getD_eq_getElem?_getD, h]

theorem sum_eq_sum_getD (l : List ℚ) :
    l.sum = ∑ k in Finset.range l.length, l.getD k 0 := by
  rw [← sum_take_getD, List.take_length]

theorem sum_range5_rotate (f : Nat → ℚ) (i : Nat) (hi : i < 5) :
    ∑ k in Finset.range 5, f ((i + k) % 5) =
      ∑ k in Finset.range 5, f k := by
  interval_cases i <;>
    (simp [Finset.sum_range_succ]; try ring)

theorem filterRepr_init : FilterRepr sensor_filter_init [] := by
  refine ⟨by simp [sensor_filter_init, FILTER_WINDOW_SIZE],
    by norm_num [sensor_filter_init],
    by simp [sensor_filter_init],
    by simp,
    by simp [sensor_filter_init],
    ?_⟩
  intro k hk
  simp at hk

theorem filterRepr_push (st : sensor_filter_t) (q : List ℚ) (x : ℚ)
    (h : FilterRepr st q) :
    FilterRepr (sensor_filter_add_value st x) (pushWindow q x) := by
  obtain ⟨hlen, hidx, hcount, hqlen, hidxeq, hget⟩ := h
  by_cases hfull : q.length = 5
  · -- full window: the oldest sample (at the cursor) is evicted
    have hc5 : st.count = 5 := by omega
    have hq : pushWindow q x = q.tail ++ [x] := by
      rw [pushWindow, if_pos hfull]
    have hqtl : q.tail.length = 4 := by
      rw [List.length_tail]
      omega
    have hql : (q.tail ++ [x]).length = 5 := by
      simp [hqtl]
    rw [hq]
    refine ⟨by simp [sensor_filter_add_value, hlen],
      by simp [sensor_filter_add_value, FILTER_WINDOW_SIZE]; omega,
      by simp [sensor_filter_add_value, FILTER_WINDOW_SIZE, hc5, hql],
      by omega,
      by intro hh; omega,
      ?_⟩
    intro k hk
    rw [hql] at hk
    simp only [sensor_filter_add_value]
    have hslot : ((st.index + 1) % FILTER_WINDOW_SIZE + 5 -
        (q.tail ++ [x]).length + k) % 5 = (st.index + 1 + k) % 5 := by
      rw [hql]
      simp only [FILTER_WINDOW_SIZE]
      omega
    rw [hslot]
    show (q.tail ++ [x]).getD k 0 =
      (st.values.set st.index x).getD ((st.index + 1 + k) % 5) 0
    by_cases hk4 : k < 4
    · rw [getD_append_left_q _ _ k (by omega)]
      rw [getD_tail_q]
      rw [hget (k + 1) (by omega)]
      rw [getD_set_ne_q _ _ _ _ (by omega)]
      congr 1
      omega
    · have hk4' : k = 4 := by omega
      subst hk4'
      rw [getD_append_right_q _ _ 4 (by omega)]
      have hi5 : (st.index + 1 + 4) % 5 = st.index := by omega
      rw [hi5, getD_set_self_q _ _ _ (by omega)]
      simp [hqtl]
  · -- window not yet full: the cursor equals the count
    have hlt : q.length < 5 := by omega
    have hidx' := hidxeq hlt
    have hq : pushWindow q x = q ++ [x] := by
      rw [pushWindow, if_neg hfull]
    have hql : (q ++ [x]).length = q.length + 1 := by simp
    rw [hq]
    refine ⟨by simp [sensor_filter_add_value, hlen],
      by simp [sensor_filter_add_value, FILTER_WINDOW_SIZE]; omega,
      by simp [sensor_filter_add_value, FILTER_WINDOW_SIZE, hcount, hlt],
      by simp; omega,
      by intro hh; simp at hh
         simp [sensor_filter_add_value, FILTER_WINDOW_SIZE, hidx']
         omega,
      ?_⟩
    intro k hk
    rw [hql] at hk
    simp only [sensor_filter_add_value]
    have hslot : ((st.index + 1) % FILTER_WINDOW_SIZE + 5 -
        (q ++ [x]).length + k) % 5 = k := by
      rw [hql]
      simp only [FILTER_WINDOW_SIZE]
      omega
    rw [hslot]
    show (q ++ [x]).getD k 0 = (st.values.set st.index x).getD k 0
    by_cases hkq : k < q.length
    · rw [getD_append_left_q _ _ k (by omega)]
      rw [getD_set_ne_q _ _ _ _ (by omega)]
      rw [hget k hkq]
      congr 1
      omega
    · have hkq' : k = q.length := by omega
      subst hkq'
      rw [getD_append_right_q _ _ q.length (by omega)]
      rw [← hidx', getD_set_self_q _ _ _ (by omega)]
      simp

theorem filterRepr_sum (st : sensor_filter_t) (q : List ℚ)
    (h : FilterRepr st q) :
    (st.values.take st.count).sum = q.sum := by
  obtain ⟨hlen, hidx, hcount, hqlen, hidxeq, hget⟩ := h
  rw [hcount, sum_take_getD, sum_eq_sum_getD]
  by_cases hfull : q.length = 5
  · rw [hfull]
    have hr := sum_range5_rotate (fun j => st.values.getD j 0) st.index hidx
    rw [← hr]
    apply Finset.sum_congr rfl
    intro k hk
    have hk5 : k < 5 := Finset.mem_range.mp hk
    rw [hget k (by omega)]
    have harg : (st.index + 5 - q.length + k) % 5 =
        (st.index + k) % 5 := by omega
    rw [harg]
  · have hlt : q.length < 5 := by omega
    have hidx' := hidxeq hlt
    apply Finset.sum_congr rfl
    intro k hk
    have hkq : k < q.length := Finset.mem_range.mp hk
    rw [hget k hkq]
    have harg : (st.index + 5 - q.length + k) % 5 = k := by omega
    rw [harg]

theorem lastWindow_length (xs : List ℚ) :
    (lastWindow 5 xs).length = min xs.length 5 := by
  rw [lastWindow, List.length_drop]
  omega

theorem lastWindow_append (xs : List ℚ) (x : ℚ) :
    lastWindow 5 (xs ++ [x]) = pushWindow (lastWindow 5 xs) x := by
  by_cases h : xs.length < 5
  · have h0 : xs.length - 5 = 0 := by omega
    have hx : lastWindow 5 xs = xs := by
      simp [lastWindow, h0]
    have hwlen : (lastWindow 5 xs).length ≠ 5 := by
      rw [lastWindow_length]
      omega
    rw [pushWindow, if_neg hwlen, hx, lastWindow]
    have h1 : (xs ++ [x]).length - 5 = 0 := by
      simp
      omega
    rw [h1, List.drop_zero]
  · have hge : 5 ≤ xs.length := by omega
    have hwlen : (lastWindow 5 xs).length = 5 := by
      rw [lastWindow_length]
      omega
    rw [pushWindow, if_pos hwlen, lastWindow, lastWindow, List.tail_drop]
    have hlen1 : (xs ++ [x]).length - 5 = (xs.length - 5) + 1 := by
      simp
      omega
    rw [hlen1, List.drop_append_of_le_length (by omega)]

theorem filterRepr_push_all (xs : List ℚ) :
    FilterRepr (sensor_filter_push_all xs) (lastWindow 5 xs) := by
  induction xs using List.reverseRecOn with
  | nil => exact filterRepr_init
  | append_singleton ys x ih =>
    have hstep : sensor_filter_push_all (ys ++ [x]) =
        sensor_filter_add_value (sensor_filter_push_all ys) x := by
      simp [sensor_filter_push_all, List.foldl_append]
    rw [hstep, lastWindow_append]
    exact filterRepr_push _ _ x ih

/-- C7.  For every sequence of `N` raw readings pushed into a freshly
initialized window-5 moving-average filter: the fill count is `min N 5`
(saturating at the window size); with no readings the filtered value is 0;
with `0 < N < 5` it is the mean of all `N` readings; with `N ≥ 5` it is the
mean of the last 5 readings; and a reset followed by a single push makes
the filtered value equal that one reading. -/
theorem c7_moving_average_filter (xs : List ℚ) :
    (sensor_filter_push_all xs).count = min xs.length 5 ∧
    (xs = [] →
      sensor_filter_get_filtered (sensor_filter_push_all xs) = 0) ∧
    (xs ≠ [] → xs.length < 5 →
      sensor_filter_get_filtered (sensor_filter_push_all xs) =
        xs.sum / (xs.length : ℚ)) ∧
    (5 ≤ xs.length →
      sensor_filter_get_filtered (sensor_filter_push_all xs) =
        (lastWindow 5 xs).sum / 5) ∧
    (∀ v : ℚ, sensor_filter_get_filtered
      (sensor_filter_add_value sensor_filter_init v) = v) := by
  have hrep := filterRepr_push_all xs
  have hsum := filterRepr_sum _ _ hrep
  have hcount : (sensor_filter_push_all xs).count = min xs.length 5 := by
    rw [hrep.2.2.1, lastWindow_length]
  refine ⟨hcount, ?_, ?_, ?_, ?_⟩
  · intro hnil
    subst hnil
    rfl
  · intro hne hlt
    have hc : (sensor_filter_push_all xs).count = xs.length := by
      rw [hcount]
      omega
    have hw : lastWindow 5 xs = xs := by
      rw [lastWindow]
      have h0 : xs.length - 5 = 0 := by omega
      rw [h0, List.drop_zero]
    have hnz : xs.length ≠ 0 := fun hh => hne (List.length_eq_zero.mp hh)
    rw [sensor_filter_get_filtered, if_neg (by rw [hc]; exact hnz), hc]
    rw [hw] at hsum
    rw [hc] at hsum
    rw [hsum]
  · intro hge
    have hc : (sensor_filter_push_all xs).count = 5 := by
      rw [hcount]
      omega
    rw [sensor_filter_get_filtered, if_neg (by rw [hc]; norm_num), hc]
    rw [hc] at hsum
    rw [hsum]
    norm_num
  · intro v
    simp [sensor_filter_init, sensor_filter_add_value,
      sensor_filter_get_filtered, FILTER_WINDOW_SIZE]

/-- Witness for `c7_moving_average_filter` at an empty sequence, a
two-sample sequence, a six-sample sequence, and a reset-then-push. -/
theorem c7_moving_average_filter_witness :
    sensor_filter_get_filtered (sensor_filter_push_all []) = 0 ∧
    sensor_filter_get_filtered (sensor_filter_push_all [1, 2]) = 3 / 2 ∧
    sensor_filter_get_filtered
      (sensor_filter_push_all [1, 2, 3, 4, 5, 6]) =
      (lastWindow 5 [1, 2, 3, 4, 5, 6]).sum / 5 ∧
    (sensor_filter_push_all [1, 2, 3, 4, 5, 6]).count = 5 ∧
    sensor_filter_get_filtered
      (sensor_filter_add_value sensor_filter_init 7) = 7 := by
  refine ⟨(c7_moving_average_filter []).2.1 rfl, ?_, ?_, ?_, ?_⟩
  · have h := (c7_moving_average_filter [1, 2]).2.2.1 (by simp) (by simp)
    rw [h]
    norm_num
  · exact (c7_moving_average_filter [1, 2, 3, 4, 5, 6]).2.2.2.1 (by simp)
  · have h := (c7_moving_average_filter [1, 2, 3, 4, 5, 6]).1
    simpa using h
  · exact (c7_moving_average_filter []).2.2.2.2 7

end EcoExo
